import Mathlib

/-!
# VidXpress API backend — task pipeline, shallow embedding

A shallow embedding of the task-lifecycle / progress-tracking core of the
`vidxpress-api-backend` repository, together with proofs of the spec's claims.

Conventions:
* Python strings are Lean `String`s; substring tests (Python `in`) are
  `containsSub` over `List Char`.
* The filesystem is an association list `FS` from paths to byte sizes; the
  external tools (yt-dlp, ffmpeg) are modelled by outcome records supplied by
  the environment, and every observable side effect of a pipeline run is
  recorded in an ordered event log (`Event`): progress-store writes, file
  creations, file removals, and ffmpeg invocations (with the exact command
  vector and the per-invocation timeout passed to `subprocess.run`).
-/

namespace VidXpress

/-! ## String helpers (Python `in`, `str.lower`, `pathlib` suffix/stem) -/

/-- Predicate startsW n h : the char list `n` is an initial segment of `h`. -/
def startsW : List Char → List Char → Bool
  | [], _ => true
  | _ :: _, [] => false
  | a :: as, b :: bs => a == b && startsW as bs

/-- Python's substring test `n in h` on char lists. -/
def containsSub (n : List Char) : List Char → Bool
  | [] => startsW n []
  | b :: bs => startsW n (b :: bs) || containsSub n bs

/-- Python `str.lower()` (per-character, as for ASCII). -/
def strLower (s : String) : List Char := s.data.map Char.toLower

/-- The last path component (`pathlib`: text after the final `/`). -/
def lastComp (l : List Char) : List Char :=
  ((l.reverse.takeWhile (fun c => !(c == '/'))).reverse)

/-- Split (pathlib) of a file name into (stem, suffix): the split is at the
last dot, provided that dot is neither the first nor the last character. -/
def splitExt (name : List Char) : List Char × List Char :=
  let after := name.reverse.takeWhile (fun c => !(c == '.'))
  if after.length = name.length then (name, [])
  else
    let i := name.length - after.length - 1
    if 0 < i ∧ i < name.length - 1 then (name.take i, name.drop i)
    else (name, [])

/-- Python Path(p).stem — last component without its suffix. -/
def stemOf (p : String) : String := ⟨(splitExt (lastComp p.data)).1⟩

/-- Python Path(p).suffix — the extension of the last component, with its dot. -/
def suffixOf (p : String) : String := ⟨(splitExt (lastComp p.data)).2⟩

/-! ## downloader.py: allow-list and URL validation -/

/-- Constant ALLOWED_DOMAINS (downloader.py). -/
def ALLOWED_DOMAINS : List String :=
  ["youtube.com", "youtu.be", "tiktok.com", "facebook.com", "instagram.com",
   "twitter.com", "x.com", "vimeo.com", "dailymotion.com"]

/-- Function validate_url (downloader.py): the lower-cased URL contains some allowed
domain as a substring. -/
def validate_url (url : String) : Bool :=
  ALLOWED_DOMAINS.any (fun d => containsSub d.data (strLower url))

/-! ## Filesystem model and `get_file_size` (converter.py) -/

/-- Filesystem: association list from path to size in bytes. -/
def FS := List (String × Nat)

/-- Python os.path.exists. -/
def fsExists (fs : FS) (p : String) : Bool :=
  (fs : List (String × Nat)).any (fun e => e.1 == p)

/-- Python os.path.getsize (on our model; 0 when absent, unreachable in source
because of the guard in `get_file_size`). -/
def fsGetSize (fs : FS) (p : String) : Nat :=
  match (fs : List (String × Nat)).find? (fun e => e.1 == p) with
  | some e => e.2
  | none => 0

/-- Function get_file_size (converter.py): 0 for a missing path, else the size. -/
def get_file_size (fs : FS) (p : String) : Nat :=
  if fsExists fs p = false then 0 else fsGetSize fs p

/-! ## Event log -/

/-- Progress snapshot as stored in `progress_store` (convert.py). -/
structure Snapshot where
  progress : Nat
  status : String
  error : Option String := none
  download_url : Option String := none
  file_id : Option String := none
  format : Option String := none
  file_size : Option Nat := none
deriving Repr, DecidableEq

/-- Observable side effects of one pipeline run. -/
inductive Event where
  /-- Store write progress_store[task_id] = snapshot -/
  | write (s : Snapshot)
  /-- a file appears at `path` with `size` bytes -/
  | create (path : String) (size : Nat)
  /-- Removal os.remove path -/
  | remove (path : String)
  /-- an ffmpeg invocation: `subprocess.run(cmd, timeout=timeoutSecs)` -/
  | ffmpeg (cmd : List String) (timeoutSecs : Nat)
deriving Repr, DecidableEq

def applyEvent (fs : FS) : Event → FS
  | .create p sz => ((p, sz) :: (fs : List (String × Nat)).filter (fun e => !(e.1 == p)) : List (String × Nat))
  | .remove p => ((fs : List (String × Nat)).filter (fun e => !(e.1 == p)) : List (String × Nat))
  | _ => fs

def applyEvents (fs : FS) (es : List Event) : FS := es.foldl applyEvent fs

/-- The store writes contained in an event log, in order. -/
def writesOf (es : List Event) : List Snapshot :=
  es.filterMap (fun e => match e with | .write s => some s | _ => none)

/-- The paths of files created during the run. -/
def createdOf (es : List Event) : List String :=
  es.filterMap (fun e => match e with | .create p _ => some p | _ => none)

/-- Whether the transcode capability (ffmpeg) was invoked. -/
def invokedFfmpeg (es : List Event) : Bool :=
  es.any (fun e => match e with | .ffmpeg _ _ => true | _ => false)

/-! ## converter.py: `convert_to_mp3`, `convert_to_mp4` -/

/-- What the external ffmpeg process would do if invoked: how long it runs,
its exit code and stderr, and whether (and how large) it leaves an output
file. Supplied by the environment. -/
structure FfmpegRun where
  duration : Nat
  returncode : Int
  stderr : String
  createsOutput : Bool
  outputSize : Nat
deriving Repr, DecidableEq

/-- The result of `subprocess.run(cmd, timeout=limit)` followed by the
return-code and output-existence checks shared by both converters:
`TimeoutExpired` if the process outlives the limit, `RuntimeError` on a
non-zero exit, `FileNotFoundError` if no output file appears. -/
def runOutcome (limit : Nat) (timeoutMsg : String) (oc : FfmpegRun)
    (output : String) : Except String Unit :=
  if limit < oc.duration then .error timeoutMsg
  else if oc.returncode ≠ 0 then .error ("FFmpeg conversion failed: " ++ oc.stderr)
  else if oc.createsOutput = false then
    .error ("FFmpeg did not create output file: " ++ output)
  else .ok ()

/-- The file events of one ffmpeg invocation: the invocation itself, plus the
output file it leaves behind (possibly partial) when it creates one. -/
def ffmpegEvents (cmd : List String) (limit : Nat) (oc : FfmpegRun)
    (output : String) : List Event :=
  [Event.ffmpeg cmd limit] ++
    (if oc.createsOutput then [Event.create output oc.outputSize] else [])

/-- Function convert_to_mp3 (converter.py): guard on input existence, then run
ffmpeg with the fixed audio parameter set and `timeout=300`. -/
def convert_to_mp3 (fs : FS) (oc : FfmpegRun) (input_file output_file : String) :
    List Event × Except String Unit :=
  if fsExists fs input_file = false then
    ([], .error ("Input file does not exist: " ++ input_file))
  else
    let cmd := ["ffmpeg", "-i", input_file, "-vn", "-acodec", "libmp3lame",
                "-q:a", "2", "-ar", "44100", "-y", output_file]
    (ffmpegEvents cmd 300 oc output_file,
     runOutcome 300 "Conversion timed out (max 5 minutes)" oc output_file)

/-- Lookup scale_map.get(quality, "scale=-2:720") (converter.py). -/
def scaleFilter (quality : String) : String :=
  if quality == "360p" then "scale=-2:360"
  else if quality == "720p" then "scale=-2:720"
  else if quality == "1080p" then "scale=-2:1080"
  else "scale=-2:720"

/-- Function convert_to_mp4 (converter.py): guard on input existence, then run
ffmpeg with the video parameter set for the requested quality and
`timeout=600`. -/
def convert_to_mp4 (fs : FS) (oc : FfmpegRun) (input_file output_file : String)
    (quality : String) : List Event × Except String Unit :=
  if fsExists fs input_file = false then
    ([], .error ("Input file does not exist: " ++ input_file))
  else
    let cmd := ["ffmpeg", "-i", input_file, "-vf", scaleFilter quality,
                "-c:v", "libx264", "-preset", "fast", "-crf", "23",
                "-c:a", "aac", "-b:a", "128k", "-movflags", "+faststart",
                "-y", output_file]
    (ffmpegEvents cmd 600 oc output_file,
     runOutcome 600 "Conversion timed out (max 10 minutes)" oc output_file)

/-! ## downloader.py: `download_video` -/

/-- Path STORAGE_DIR = BASE_DIR / "downloads" (downloader.py / cleanup.py);
`BASE_DIR` is the deployment-dependent repository root. -/
def STORAGE_DIR (baseDir : String) : String := baseDir ++ "/downloads"

/-- What the external yt-dlp invocation would do: either leave a file
`{fileId}.{ext}` in `STORAGE_DIR` (`fileId` the fresh shortuuid drawn by
`download_video`), or fail with a message. -/
inductive DownloadOutcome where
  | success (fileId ext : String) (size : Nat)
  | failure (msg : String)
deriving Repr, DecidableEq

/-- The rejection message raised by `download_video`/`get_video_metadata`
for a URL outside the allow-list (downloader.py). -/
def domainErrMsg : String :=
  "Domain not supported. Allowed domains: " ++ String.intercalate ", " ALLOWED_DOMAINS

/-- Function download_video (downloader.py): re-validates the domain, then runs
yt-dlp with output template `{fileId}.%(ext)s` under `STORAGE_DIR` and
returns the downloaded file's path. -/
def download_video (baseDir url : String) (dl : DownloadOutcome) :
    List Event × Except String String :=
  if validate_url url = false then
    ([], .error domainErrMsg)
  else
    match dl with
    | .success fileId ext sz =>
        let p := STORAGE_DIR baseDir ++ "/" ++ fileId ++ "." ++ ext
        ([Event.create p sz], .ok p)
    | .failure m => ([], .error m)

/-! ## convert.py: constants, request, submit, pipeline -/

/-- Path TEMP_DIR = Path("/tmp/files") (convert.py). -/
def TEMP_DIR : String := "/tmp/files"

/-- Constant MAX_FILE_SIZE = 100 * 1024 * 1024 (convert.py). -/
def MAX_FILE_SIZE : Nat := 100 * 1024 * 1024

/-- Decimal rendering of `bytes / 1024 / 1024` with two decimals, standing in
for Python's `f"{x:.2f}"` float formatting (integer rounding approximates the
binary-float round-half-even; the claims only inspect the fixed text around
it). -/
def fmtMB (bytes : Nat) : String :=
  let cents := (bytes * 100 + 524288) / 1048576
  toString (cents / 100) ++ "." ++
    (if cents % 100 < 10 then "0" else "") ++ toString (cents % 100)

/-- The size-limit error message written by the quota check (convert.py). -/
def sizeErrMsg (sz : Nat) : String :=
  "File exceeds 100MB limit" ++ " (" ++ fmtMB sz ++ " MB)"

/-- Request model ConvertRequest (convert.py). -/
structure ConvertRequest where
  video_url : String
  format : String
  quality : String := "720p"
deriving Repr, DecidableEq

/-- The environment of one background run: the outcome of the external
download, the outcome of the (at most one) ffmpeg invocation, and the fresh
shortuuid drawn for the output file name. -/
structure PipelineEnv where
  dl : DownloadOutcome
  conv : FfmpegRun
  outId : String
deriving Repr, DecidableEq

/-- The `except` handler of `process_video` (convert.py lines 137–153):
`for file in [downloaded_file, output_file]: if file and os.path.exists(file):
os.remove(file)` — sequential, each guarded by its own try. -/
def cleanupEvents (fs : FS) : List (Option String) → List Event
  | [] => []
  | none :: rest => cleanupEvents fs rest
  | some p :: rest =>
      if fsExists fs p then
        Event.remove p :: cleanupEvents (applyEvent fs (Event.remove p)) rest
      else cleanupEvents fs rest

/-- An `ERROR` terminal snapshot with cause `m`. -/
def errorSnap (m : String) : Snapshot :=
  { progress := 100, status := "error", error := some m }

/-- Function process_video (convert.py lines 51–153), as the ordered log of its
side effects. The surrounding state is the filesystem `fs0` at launch. -/
def process_video (baseDir : String) (req : ConvertRequest) (env : PipelineEnv)
    (fs0 : FS) : List Event :=
  let e1 : List Event := [Event.write { progress := 5, status := "downloading" }]
  let fs1 := applyEvents fs0 e1
  let dlR := download_video baseDir req.video_url env.dl
  let fs2 := applyEvents fs1 dlR.1
  match dlR.2 with
  | .error m =>
      -- exception inside download_video: both file variables still None
      e1 ++ dlR.1 ++ cleanupEvents fs2 [none, none] ++ [Event.write (errorSnap m)]
  | .ok downloaded_file =>
      if fsExists fs2 downloaded_file = false then
        -- `raise FileNotFoundError(...)`, caught by the handler below
        let m := "Download failed - file not found: " ++ downloaded_file
        e1 ++ dlR.1 ++ cleanupEvents fs2 [some downloaded_file, none] ++
          [Event.write (errorSnap m)]
      else
        let e2 : List Event := [Event.write { progress := 50, status := "downloaded" }]
        let file_size := get_file_size fs2 downloaded_file
        if MAX_FILE_SIZE < file_size then
          let rmE := if fsExists fs2 downloaded_file then [Event.remove downloaded_file] else []
          e1 ++ dlR.1 ++ e2 ++ rmE ++ [Event.write (errorSnap (sizeErrMsg file_size))]
        else
          let e3 : List Event := [Event.write { progress := 60, status := "converting" }]
          let output_file := TEMP_DIR ++ "/" ++ env.outId ++ "." ++ req.format
          let convR :=
            if req.format == "mp3" then
              convert_to_mp3 fs2 env.conv downloaded_file output_file
            else
              let input_ext := suffixOf downloaded_file
              if (⟨(input_ext.data.map Char.toLower)⟩ : String) == ".mp4" then
                -- re-encode with quality settings
                convert_to_mp4 fs2 env.conv downloaded_file output_file req.quality
              else
                -- convert other formats to mp4
                convert_to_mp4 fs2 env.conv downloaded_file output_file req.quality
          let fs3 := applyEvents fs2 convR.1
          match convR.2 with
          | .error m =>
              e1 ++ dlR.1 ++ e2 ++ e3 ++ convR.1 ++
                cleanupEvents fs3 [some downloaded_file, some output_file] ++
                [Event.write (errorSnap m)]
          | .ok _ =>
              let e4 : List Event := [Event.write { progress := 90, status := "finalizing" }]
              if fsExists fs3 output_file = false then
                let m := "Conversion failed - output file not created: " ++ output_file
                e1 ++ dlR.1 ++ e2 ++ e3 ++ convR.1 ++ e4 ++
                  cleanupEvents fs3 [some downloaded_file, some output_file] ++
                  [Event.write (errorSnap m)]
              else
                let output_size := get_file_size fs3 output_file
                let rmE :=
                  if fsExists fs3 downloaded_file ∧ downloaded_file ≠ output_file then
                    [Event.remove downloaded_file]
                  else []
                let output_file_id := stemOf output_file
                let download_url :=
                  "https://api.vidxpress.app/api/download/" ++ output_file_id
                e1 ++ dlR.1 ++ e2 ++ e3 ++ convR.1 ++ e4 ++ rmE ++
                  [Event.write { progress := 100, status := "complete",
                                 download_url := some download_url,
                                 file_id := some output_file_id,
                                 format := some req.format,
                                 file_size := some output_size }]

/-- In-memory registry `progress_store` (convert.py). -/
def Registry := List (String × Snapshot)

/-- Result of the synchronous part of `POST /api/convert`. -/
inductive SubmitOutcome where
  | rejected (code : Nat) (detail : String)
  | accepted (task_id : String)
deriving Repr, DecidableEq

/-- Function convert_video (convert.py lines 32–158), synchronous part: the three
validation gates, then registration of the fresh task id with the
`{progress 0, starting}` snapshot. `taskId` is the shortuuid that would be
drawn; on rejection it is never drawn and the store is untouched. -/
def convert_video (req : ConvertRequest) (taskId : String) (store : Registry) :
    SubmitOutcome × Registry :=
  if req.video_url == "" then
    (.rejected 400 "video_url is required", store)
  else if ¬ (req.format == "mp3" || req.format == "mp4") then
    (.rejected 400 "format must be 'mp3' or 'mp4'", store)
  else if validate_url req.video_url = false then
    (.rejected 400 "URL domain not supported", store)
  else
    (.accepted taskId,
     ((taskId, { progress := 0, status := "starting" }) :: (store : List (String × Snapshot)) : List (String × Snapshot)))

/-- The full sequence of snapshots written to `progress_store` for one
accepted task: the registration write followed by the background run's
writes. -/
def taskTrace (baseDir : String) (req : ConvertRequest) (env : PipelineEnv)
    (fs0 : FS) : List Snapshot :=
  { progress := 0, status := "starting" } :: writesOf (process_video baseDir req env fs0)

/-! ## convert.py: progress stream -/

/-- A snapshot is terminal when its status is `complete` or `error`. -/
def isTerminal (s : Snapshot) : Bool :=
  s.status == "complete" || s.status == "error"

/-- Generator event_generator (convert.py lines 175–187) over the successive values
it reads from `progress_store`: yield each read; on a terminal read, yield it
once more and stop. An exhausted read list models the watcher disconnecting. -/
def event_generator : List Snapshot → List Snapshot
  | [] => []
  | d :: rest =>
      if isTerminal d then [d, d] else d :: event_generator rest

/-- Route progress_stream (convert.py lines 167–200): 404 for an unknown task id,
else the generator's emissions. -/
def progress_stream (store : Registry) (task_id : String)
    (reads : List Snapshot) : Except Nat (List Snapshot) :=
  if ((store : List (String × Snapshot)).lookup task_id).isNone then .error 404
  else .ok (event_generator reads)

/-! ## cleanup.py: aging sweep -/

/-- Constant CLEANUP_INTERVAL = 3600 (cleanup.py). -/
def CLEANUP_INTERVAL : Nat := 3600

/-- A file lies in the sweep's glob `STORAGE_DIR.glob("*")`. -/
def inStorageDir (baseDir path : String) : Bool :=
  startsW (STORAGE_DIR baseDir ++ "/").data path.data

/-- Function cleanup_old_files (cleanup.py): delete every file under `STORAGE_DIR`
(the `downloads` directory) whose age exceeds `max_age_seconds`. The
filesystem here pairs each path with its mtime. -/
def cleanup_old_files (baseDir : String) (now : Nat)
    (max_age_seconds : Nat) (files : List (String × Nat)) : List (String × Nat) :=
  files.filter (fun f => ¬ (inStorageDir baseDir f.1 = true ∧ max_age_seconds < now - f.2))

/-! ## Helper lemmas: substring characterization -/

theorem startsW_iff (n : List Char) : ∀ h : List Char,
    startsW n h = true ↔ ∃ r, h = n ++ r := by
  induction n with
  | nil => intro h; simp [startsW]
  | cons a as ih =>
      intro h
      cases h with
      | nil => simp [startsW]
      | cons b bs =>
          simp only [startsW, Bool.and_eq_true, beq_iff_eq, List.cons_append,
            List.cons.injEq, ih bs]
          constructor
          · rintro ⟨rfl, r, rfl⟩; exact ⟨r, rfl, rfl⟩
          · rintro ⟨r, rfl, rfl⟩; exact ⟨rfl, r, rfl⟩

theorem containsSub_iff (n : List Char) : ∀ h : List Char,
    containsSub n h = true ↔ ∃ l r, h = l ++ n ++ r := by
  intro h
  induction h with
  | nil =>
      simp only [containsSub, startsW_iff]
      constructor
      · rintro ⟨r, hr⟩; exact ⟨[], r, hr⟩
      · rintro ⟨l, r, hr⟩
        rcases List.append_eq_nil.mp hr.symm with ⟨hln, rfl⟩
        rcases List.append_eq_nil.mp hln with ⟨rfl, rfl⟩
        exact ⟨[], rfl⟩
  | cons b bs ih =>
      simp only [containsSub, Bool.or_eq_true, startsW_iff, ih]
      constructor
      · rintro (⟨r, hr⟩ | ⟨l, r, hr⟩)
        · exact ⟨[], r, by simpa using hr⟩
        · exact ⟨b :: l, r, by simp [hr]⟩
      · rintro ⟨l, r, hr⟩
        cases l with
        | nil => exact Or.inl ⟨r, by simpa using hr⟩
        | cons x xs =>
            right
            obtain ⟨rfl, hr'⟩ := by simpa using hr
            exact ⟨xs, r, by simpa using hr'⟩

theorem containsSub_self_append (n r : List Char) : containsSub n (n ++ r) = true := by
  rw [containsSub_iff]; exact ⟨[], r, by simp⟩

/-! ## Helper lemmas: event logs -/

theorem writesOf_nil : writesOf [] = [] := rfl

theorem writesOf_append (a b : List Event) :
    writesOf (a ++ b) = writesOf a ++ writesOf b := by
  simp [writesOf, List.filterMap_append]

theorem mem_cleanupEvents (fs : FS) (l : List (Option String)) :
    ∀ e ∈ cleanupEvents fs l, ∃ p, e = Event.remove p := by
  induction l generalizing fs with
  | nil => intro e he; cases he
  | cons o rest ih =>
      cases o with
      | none => intro e he; exact ih fs e (by simpa [cleanupEvents] using he)
      | some p =>
          intro e he
          by_cases h : fsExists fs p = true
          · rw [show cleanupEvents fs (some p :: rest) =
                Event.remove p :: cleanupEvents (applyEvent fs (Event.remove p)) rest from
                by simp [cleanupEvents, h]] at he
            rcases List.mem_cons.mp he with rfl | he'
            · exact ⟨p, rfl⟩
            · exact ih _ e he'
          · exact ih fs e (by simpa [cleanupEvents, Bool.of_not_eq_true h] using he)

theorem writesOf_cleanup (fs : FS) (l : List (Option String)) :
    writesOf (cleanupEvents fs l) = [] := by
  refine List.filterMap_eq_nil_iff.mpr ?_
  intro e he
  obtain ⟨p, rfl⟩ := mem_cleanupEvents fs l e he
  rfl

theorem writesOf_ffmpegEvents (cmd : List String) (lim : Nat) (oc : FfmpegRun)
    (out : String) : writesOf (ffmpegEvents cmd lim oc out) = [] := by
  cases h : oc.createsOutput <;> simp [ffmpegEvents, h, writesOf]

theorem createdOf_cleanup (fs : FS) (l : List (Option String)) :
    createdOf (cleanupEvents fs l) = [] := by
  refine List.filterMap_eq_nil_iff.mpr ?_
  intro e he
  obtain ⟨p, rfl⟩ := mem_cleanupEvents fs l e he
  rfl

theorem invokedFfmpeg_append (a b : List Event) :
    invokedFfmpeg (a ++ b) = (invokedFfmpeg a || invokedFfmpeg b) := by
  simp [invokedFfmpeg, List.any_append]

theorem invokedFfmpeg_cleanup (fs : FS) (l : List (Option String)) :
    invokedFfmpeg (cleanupEvents fs l) = false := by
  refine List.any_eq_false.mpr ?_
  intro e he
  obtain ⟨p, rfl⟩ := mem_cleanupEvents fs l e he
  simp

theorem writesOf_cons_write (s : Snapshot) (es : List Event) :
    writesOf (Event.write s :: es) = s :: writesOf es := rfl

theorem writesOf_cons_create (p : String) (n : Nat) (es : List Event) :
    writesOf (Event.create p n :: es) = writesOf es := rfl

theorem writesOf_cons_remove (p : String) (es : List Event) :
    writesOf (Event.remove p :: es) = writesOf es := rfl

theorem writesOf_cons_ffmpeg (c : List String) (l : Nat) (es : List Event) :
    writesOf (Event.ffmpeg c l :: es) = writesOf es := rfl

theorem writesOf_rmE (c : Prop) [Decidable c] (p : String) :
    writesOf (if c then [Event.remove p] else []) = [] := by
  split <;> rfl

theorem createdOf_rmE (c : Prop) [Decidable c] (p : String) :
    createdOf (if c then [Event.remove p] else []) = [] := by
  split <;> rfl

theorem invokedFfmpeg_rmE (c : Prop) [Decidable c] (p : String) :
    invokedFfmpeg (if c then [Event.remove p] else []) = false := by
  split <;> rfl

theorem writesOf_rmE2 (c : Prop) [Decidable c] (p : String) :
    writesOf (if c then [] else [Event.remove p]) = [] := by
  split <;> rfl

theorem createdOf_rmE2 (c : Prop) [Decidable c] (p : String) :
    createdOf (if c then [] else [Event.remove p]) = [] := by
  split <;> rfl

theorem invokedFfmpeg_rmE2 (c : Prop) [Decidable c] (p : String) :
    invokedFfmpeg (if c then [] else [Event.remove p]) = false := by
  split <;> rfl

theorem createdOf_append (a b : List Event) :
    createdOf (a ++ b) = createdOf a ++ createdOf b := by
  simp [createdOf, List.filterMap_append]

theorem createdOf_cons_write (s : Snapshot) (es : List Event) :
    createdOf (Event.write s :: es) = createdOf es := rfl

theorem createdOf_cons_create (p : String) (n : Nat) (es : List Event) :
    createdOf (Event.create p n :: es) = p :: createdOf es := rfl

theorem createdOf_cons_remove (p : String) (es : List Event) :
    createdOf (Event.remove p :: es) = createdOf es := rfl

theorem createdOf_cons_ffmpeg (c : List String) (l : Nat) (es : List Event) :
    createdOf (Event.ffmpeg c l :: es) = createdOf es := rfl

theorem createdOf_nil : createdOf [] = [] := rfl

theorem applyEvents_append (fs : FS) (a b : List Event) :
    applyEvents fs (a ++ b) = applyEvents (applyEvents fs a) b := by
  simp [applyEvents, List.foldl_append]

theorem createdOf_ffmpegEvents (cmd : List String) (lim : Nat) (oc : FfmpegRun)
    (out : String) :
    createdOf (ffmpegEvents cmd lim oc out) =
      if oc.createsOutput = true then [out] else [] := by
  cases h : oc.createsOutput <;> simp [ffmpegEvents, h, createdOf]

theorem invokedFfmpeg_ffmpegEvents (cmd : List String) (lim : Nat) (oc : FfmpegRun)
    (out : String) : invokedFfmpeg (ffmpegEvents cmd lim oc out) = true := by
  cases h : oc.createsOutput <;> simp [ffmpegEvents, h, invokedFfmpeg]

/-! ## Claims about validation and the size probe -/

/-- C9: `validate_url` returns true exactly when the lower-cased input
contains one of the nine allow-listed domain strings as a substring anywhere
in the string; no host parsing happens, so a string embedding an allowed
domain in its query part is accepted. -/
theorem C9_validate_url_is_substring_test :
    (∀ url : String, validate_url url = true ↔
        ∃ d ∈ ALLOWED_DOMAINS, ∃ l r, strLower url = l ++ d.data ++ r) ∧
    ALLOWED_DOMAINS.length = 9 ∧
    validate_url "https://evil.example/watch?source=youtube.com" = true := by
  refine ⟨?_, rfl, by decide⟩
  intro url
  simp only [validate_url, List.any_eq_true, containsSub_iff]

/-- C10: `get_file_size` is total and returns 0 on every path that does not
exist, so a nonexistent path always passes the quota comparison against
`MAX_FILE_SIZE`. -/
theorem C10_get_file_size_missing_is_zero :
    ∀ (fs : FS) (p : String), fsExists fs p = false →
      get_file_size fs p = 0 ∧ ¬ MAX_FILE_SIZE < get_file_size fs p := by
  intro fs p h
  refine ⟨by simp [get_file_size, h], ?_⟩
  simp [get_file_size, h, MAX_FILE_SIZE]

theorem C10_get_file_size_missing_is_zero_witness :
    fsExists ([] : FS) "/tmp/files/absent.mp4" = false ∧
    (get_file_size ([] : FS) "/tmp/files/absent.mp4" = 0 ∧
      ¬ MAX_FILE_SIZE < get_file_size ([] : FS) "/tmp/files/absent.mp4") :=
  ⟨rfl, C10_get_file_size_missing_is_zero [] "/tmp/files/absent.mp4" rfl⟩

/-- C3: a submission with an empty URL, an unsupported format token, or a URL
outside the domain allow-list is rejected synchronously with a 400 client
error and the registry is left untouched: no task id is registered for it. -/
theorem C3_invalid_submission_rejected_before_registration :
    ∀ (req : ConvertRequest) (taskId : String) (store : Registry),
      (req.video_url = "" ∨ (req.format ≠ "mp3" ∧ req.format ≠ "mp4") ∨
        validate_url req.video_url = false) →
      ∃ detail, convert_video req taskId store =
        (SubmitOutcome.rejected 400 detail, store) := by
  intro req taskId store h
  unfold convert_video
  split
  · exact ⟨_, rfl⟩
  · split
    · exact ⟨_, rfl⟩
    · split
      · exact ⟨_, rfl⟩
      · exfalso
        rename_i h1 h2 h3
        rcases h with h | ⟨hf3, hf4⟩ | h
        · exact h1 (by simp [h])
        · rcases (Bool.or_eq_true _ _).mp (not_not.mp h2) with hm | hm
          · exact hf3 (by simpa using hm)
          · exact hf4 (by simpa using hm)
        · exact h3 h

theorem C3_invalid_submission_rejected_before_registration_witness :
    (("" : String) = "" ∨ (("mp3" : String) ≠ "mp3" ∧ ("mp3" : String) ≠ "mp4") ∨
      validate_url "" = false) ∧
    ∃ detail, convert_video { video_url := "", format := "mp3" } "task1" [] =
      (SubmitOutcome.rejected 400 detail, []) :=
  ⟨Or.inl rfl,
   C3_invalid_submission_rejected_before_registration
     { video_url := "", format := "mp3" } "task1" [] (Or.inl rfl)⟩

/-! ## Claims about the progress stream -/

/-- The terminal snapshot of a completed task, used as the C5 counterexample
input. -/
def completeSnap : Snapshot := { progress := 100, status := "complete" }

/-- C5 counterexample: the generator does NOT terminate immediately after
emitting the first terminal snapshot, and subscribing to an already-completed
task does NOT yield its terminal snapshot once: the source re-sends the final
event one more time before closing, so the terminal snapshot is emitted
twice. -/
theorem C5_counterexample_terminal_emitted_twice :
    progress_stream [("t1", completeSnap)] "t1" [completeSnap] =
      Except.ok [completeSnap, completeSnap] ∧
    (Except.ok [completeSnap, completeSnap] : Except Nat (List Snapshot)) ≠
      Except.ok [completeSnap] ∧
    (event_generator [completeSnap]).count completeSnap = 2 := by
  refine ⟨rfl, by simp, rfl⟩

/-- C5 as amended: the emitted sequence is finite and consists of the
non-terminal reads followed, as soon as a terminal snapshot is read, by that
terminal snapshot twice (the final event is re-sent once before the stream
closes); nothing is emitted after that. In particular subscribing to a task
whose registry snapshot is terminal yields exactly that snapshot twice and
the sequence ends. -/
theorem C5_amended_stream_terminates_after_duplicate_terminal :
    (∀ reads : List Snapshot,
        event_generator reads =
          reads.takeWhile (fun d => !(isTerminal d)) ++
            (match reads.dropWhile (fun d => !(isTerminal d)) with
             | [] => []
             | t :: _ => [t, t])) ∧
    (∀ (store : Registry) (task_id : String) (s : Snapshot) (rest : List Snapshot),
        (store : List (String × Snapshot)).lookup task_id = some s →
        isTerminal s = true →
        progress_stream store task_id (s :: rest) = Except.ok [s, s]) := by
  constructor
  · intro reads
    induction reads with
    | nil => rfl
    | cons d rest ih =>
        by_cases h : isTerminal d = true
        · simp [event_generator, h, List.takeWhile_cons, List.dropWhile_cons]
        · have h' : isTerminal d = false := Bool.of_not_eq_true h
          simp [event_generator, h', List.takeWhile_cons, List.dropWhile_cons, ih]
  · intro store task_id s rest hlook hterm
    have : ((store : List (String × Snapshot)).lookup task_id).isNone = false := by
      rw [hlook]; rfl
    simp [progress_stream, this, event_generator, hterm]

theorem C5_amended_witness :
    (([("t1", errorSnap "boom")] : Registry) :
        List (String × Snapshot)).lookup "t1" = some (errorSnap "boom") ∧
    isTerminal (errorSnap "boom") = true ∧
    progress_stream [("t1", errorSnap "boom")] "t1" [errorSnap "boom"] =
      Except.ok [errorSnap "boom", errorSnap "boom"] :=
  ⟨rfl, rfl,
   C5_amended_stream_terminates_after_duplicate_terminal.2
     [("t1", errorSnap "boom")] "t1" (errorSnap "boom") [] rfl rfl⟩

/-! ## Claim about the aging sweep (cleanup.py) -/

/-- C8: the sweep `cleanup_old_files` globs only `STORAGE_DIR` (the
`downloads` directory of intermediate artifacts), while the retained output
artifacts live under `TEMP_DIR = /tmp/files`; a retained output older than
the retention window survives the sweep, although a same-aged file under the
downloads directory is deleted; contrary to the claim (and to the
docstring of cleanup_old_files, which says it cleans the temp directory),
retained outputs are never reclaimed. -/
theorem C8_sweep_never_reclaims_retained_outputs :
    cleanup_old_files "/app" 10000 CLEANUP_INTERVAL
        [(TEMP_DIR ++ "/abc123.mp3", 0)] = [(TEMP_DIR ++ "/abc123.mp3", 0)] ∧
    cleanup_old_files "/app" 10000 CLEANUP_INTERVAL
        [("/app/downloads/abc123.mp4", 0)] = [] ∧
    CLEANUP_INTERVAL < 10000 - 0 := by
  refine ⟨by decide, by decide, by decide⟩

/-! ## Run characterization: named paths, snapshots and per-format data -/

/-- The intermediate artifact's path for a successful download with shortuuid
`fid` and detected extension `ext`. -/
def dlPath (baseDir fid ext : String) : String :=
  STORAGE_DIR baseDir ++ "/" ++ fid ++ "." ++ ext

/-- The output artifact's path: generated under `TEMP_DIR` from the fresh
shortuuid `env.outId` with the requested format as extension. -/
def outPath (env : PipelineEnv) (req : ConvertRequest) : String :=
  TEMP_DIR ++ "/" ++ env.outId ++ "." ++ req.format

def snapStarting : Snapshot := { progress := 0, status := "starting" }

def snapDownloading : Snapshot := { progress := 5, status := "downloading" }

def snapDownloaded : Snapshot := { progress := 50, status := "downloaded" }

def snapConverting : Snapshot := { progress := 60, status := "converting" }

def snapFinalizing : Snapshot := { progress := 90, status := "finalizing" }

def snapComplete (out fmt : String) (sz : Nat) : Snapshot :=
  { progress := 100, status := "complete",
    download_url := some ("https://api.vidxpress.app/api/download/" ++ stemOf out),
    file_id := some (stemOf out), format := some fmt, file_size := some sz }

/-- The ffmpeg command vector chosen by `process_video` for the request. -/
def convCmd (req : ConvertRequest) (input out : String) : List String :=
  if req.format == "mp3" then
    ["ffmpeg", "-i", input, "-vn", "-acodec", "libmp3lame",
     "-q:a", "2", "-ar", "44100", "-y", out]
  else
    ["ffmpeg", "-i", input, "-vf", scaleFilter req.quality,
     "-c:v", "libx264", "-preset", "fast", "-crf", "23",
     "-c:a", "aac", "-b:a", "128k", "-movflags", "+faststart", "-y", out]

/-- The `subprocess.run` timeout ceiling chosen by `process_video` for the
request: 300 s on the audio path, 600 s on the video path. -/
def convLim (req : ConvertRequest) : Nat := if req.format == "mp3" then 300 else 600

/-- The timeout error message raised on the chosen path. -/
def convTimeoutMsg (req : ConvertRequest) : String :=
  if req.format == "mp3" then "Conversion timed out (max 5 minutes)"
  else "Conversion timed out (max 10 minutes)"

/-! ## Filesystem lemmas -/

theorem applyEvents_nil (fs : FS) : applyEvents fs [] = fs := rfl

theorem applyEvents_cons (fs : FS) (e : Event) (es : List Event) :
    applyEvents fs (e :: es) = applyEvents (applyEvent fs e) es := rfl

theorem applyEvent_write (fs : FS) (s : Snapshot) :
    applyEvent fs (Event.write s) = fs := rfl

theorem applyEvent_ffmpeg (fs : FS) (c : List String) (l : Nat) :
    applyEvent fs (Event.ffmpeg c l) = fs := rfl

theorem any_filter_ne (fs : List (String × Nat)) (q p : String) (h : ¬ q = p) :
    ((fs.filter (fun e => !(e.1 == q))).any (fun e => e.1 == p)) =
      fs.any (fun e => e.1 == p) := by
  induction fs with
  | nil => rfl
  | cons e t ih =>
      by_cases he : e.1 = q
      · have h1 : (e.1 == q) = true := by simpa using he
        have h2 : (e.1 == p) = false := by simp [he, h]
        simp [List.filter_cons, h1, List.any_cons, h2, ih]
      · have h1 : (e.1 == q) = false := by simpa using he
        simp [List.filter_cons, h1, List.any_cons, ih]

theorem fsExists_create (fs : FS) (q : String) (n : Nat) (p : String) :
    fsExists (applyEvent fs (Event.create q n)) p = (q == p || fsExists fs p) := by
  by_cases hqp : q = p
  · subst hqp
    simp [applyEvent, fsExists, List.any_cons]
  · have h1 : (q == p) = false := by simpa using hqp
    simp only [applyEvent, fsExists, List.any_cons, h1, Bool.false_or]
    exact any_filter_ne fs q p hqp

theorem fsExists_remove (fs : FS) (q p : String) :
    fsExists (applyEvent fs (Event.remove q)) p =
      (!(q == p) && fsExists fs p) := by
  by_cases hqp : q = p
  · subst hqp
    simp only [applyEvent, fsExists, beq_self_eq_true, Bool.not_true, Bool.false_and]
    refine List.any_eq_false.mpr ?_
    intro e he
    have := (List.mem_filter.mp he).2
    simpa using this
  · have h1 : (q == p) = false := by simpa using hqp
    simp only [applyEvent, fsExists, h1, Bool.not_false, Bool.true_and]
    exact any_filter_ne fs q p hqp

theorem get_file_size_create_self (fs : FS) (p : String) (n : Nat) :
    get_file_size (applyEvent fs (Event.create p n)) p = n := by
  simp [get_file_size, applyEvent, fsExists, fsGetSize, List.any_cons, List.find?]

theorem fsExists_applyEvents_removes (l : List Event)
    (h : ∀ e ∈ l, ∃ q, e = Event.remove q) (fs : FS) (p : String)
    (hp : fsExists fs p = false) : fsExists (applyEvents fs l) p = false := by
  induction l generalizing fs with
  | nil => exact hp
  | cons e t ih =>
      obtain ⟨q, rfl⟩ := h e (List.mem_cons_self e t)
      have h' : ∀ e ∈ t, ∃ q, e = Event.remove q := fun e he => h e (List.mem_cons_of_mem _ he)
      refine ih h' (applyEvent fs (Event.remove q)) ?_
      rw [fsExists_remove, hp, Bool.and_false]

theorem cleanup_removes (l : List (Option String)) :
    ∀ (fs : FS) (p : String), some p ∈ l →
      fsExists (applyEvents fs (cleanupEvents fs l)) p = false := by
  induction l with
  | nil => intro fs p hp; cases hp
  | cons o rest ih =>
      intro fs p hp
      cases o with
      | none =>
          have hp' : some p ∈ rest := by simpa using hp
          simpa [cleanupEvents] using ih fs p hp'
      | some q =>
          by_cases h : fsExists fs q = true
          · rw [show cleanupEvents fs (some q :: rest) =
                Event.remove q :: cleanupEvents (applyEvent fs (Event.remove q)) rest from
                by simp [cleanupEvents, h]]
            rw [show applyEvents fs
                  (Event.remove q :: cleanupEvents (applyEvent fs (Event.remove q)) rest) =
                applyEvents (applyEvent fs (Event.remove q))
                  (cleanupEvents (applyEvent fs (Event.remove q)) rest) from rfl]
            rcases List.mem_cons.mp hp with hpq | hp'
            · have hpq' : q = p := by injection hpq.symm
              subst hpq'
              refine fsExists_applyEvents_removes _ (mem_cleanupEvents _ _) _ _ ?_
              rw [fsExists_remove, beq_self_eq_true, Bool.not_true, Bool.false_and]
            · exact ih (applyEvent fs (Event.remove q)) p hp'
          · have hq : fsExists fs q = false := Bool.of_not_eq_true h
            rw [show cleanupEvents fs (some q :: rest) = cleanupEvents fs rest from
                by simp [cleanupEvents, hq]]
            rcases List.mem_cons.mp hp with hpq | hp'
            · have hpq' : q = p := by injection hpq.symm
              subst hpq'
              exact fsExists_applyEvents_removes _ (mem_cleanupEvents _ _) _ _ hq
            · exact ih fs p hp'

theorem runOutcome_ok_createsOutput (lim : Nat) (msg : String) (oc : FfmpegRun)
    (out : String) (u : Unit) (h : runOutcome lim msg oc out = Except.ok u) :
    oc.createsOutput = true := by
  unfold runOutcome at h
  split at h
  · cases h
  · split at h
    · cases h
    · split at h
      · cases h
      · rename_i h3
        exact Bool.of_not_eq_false h3

/-! ## Run characterization lemmas: the exact event log of each scenario -/

theorem run_invalid_url (b : String) (req : ConvertRequest) (env : PipelineEnv)
    (fs0 : FS) (hv : validate_url req.video_url = false) :
    process_video b req env fs0 =
      [Event.write snapDownloading, Event.write (errorSnap domainErrMsg)] := by
  simp [process_video, download_video, hv, cleanupEvents, snapDownloading]

theorem run_dl_failure (b : String) (req : ConvertRequest) (env : PipelineEnv)
    (fs0 : FS) (m : String) (hv : validate_url req.video_url = true)
    (hdl : env.dl = DownloadOutcome.failure m) :
    process_video b req env fs0 =
      [Event.write snapDownloading, Event.write (errorSnap m)] := by
  simp [process_video, download_video, hv, hdl, cleanupEvents, snapDownloading]

theorem run_oversize (b : String) (req : ConvertRequest) (env : PipelineEnv)
    (fs0 : FS) (fid ext : String) (sz : Nat)
    (hv : validate_url req.video_url = true)
    (hdl : env.dl = DownloadOutcome.success fid ext sz)
    (hsz : MAX_FILE_SIZE < sz) :
    process_video b req env fs0 =
      [Event.write snapDownloading, Event.create (dlPath b fid ext) sz,
       Event.write snapDownloaded, Event.remove (dlPath b fid ext),
       Event.write (errorSnap (sizeErrMsg sz))] := by
  simp [process_video, download_video, hv, hdl, dlPath, applyEvents, applyEvent,
    fsExists, List.any_cons, get_file_size, fsGetSize, List.find?, hsz,
    snapDownloading, snapDownloaded]

theorem run_sizeok (b : String) (req : ConvertRequest) (env : PipelineEnv)
    (fs0 : FS) (fid ext : String) (sz : Nat)
    (hv : validate_url req.video_url = true)
    (hdl : env.dl = DownloadOutcome.success fid ext sz)
    (hsz : ¬ MAX_FILE_SIZE < sz) :
    process_video b req env fs0 =
      [Event.write snapDownloading, Event.create (dlPath b fid ext) sz,
       Event.write snapDownloaded, Event.write snapConverting] ++
      ffmpegEvents (convCmd req (dlPath b fid ext) (outPath env req)) (convLim req)
        env.conv (outPath env req) ++
      (match runOutcome (convLim req) (convTimeoutMsg req) env.conv (outPath env req) with
       | .error m =>
           cleanupEvents
             (applyEvents (applyEvent fs0 (Event.create (dlPath b fid ext) sz))
               (ffmpegEvents (convCmd req (dlPath b fid ext) (outPath env req))
                 (convLim req) env.conv (outPath env req)))
             [some (dlPath b fid ext), some (outPath env req)] ++
             [Event.write (errorSnap m)]
       | .ok _ =>
           [Event.write snapFinalizing] ++
           (if dlPath b fid ext ≠ outPath env req
            then [Event.remove (dlPath b fid ext)] else []) ++
           [Event.write (snapComplete (outPath env req) req.format
              env.conv.outputSize)]) := by
  rcases hro : runOutcome (convLim req) (convTimeoutMsg req) env.conv (outPath env req)
    with m | u
  · by_cases hf : (req.format == "mp3") = true
    · rw [convLim, if_pos hf, convTimeoutMsg, if_pos hf] at hro
      simp only [outPath] at hro
      simp [process_video, download_video, hv, hdl, convert_to_mp3,
        applyEvents_nil, applyEvents_cons, applyEvent_write, applyEvent_ffmpeg,
        fsExists_create, beq_self_eq_true, Bool.or_true,
        get_file_size_create_self, hsz, hf, hro, convCmd, convLim, convTimeoutMsg,
        dlPath, outPath, snapDownloading, snapDownloaded, snapConverting]
    · rw [convLim, if_neg hf, convTimeoutMsg, if_neg hf] at hro
      simp only [outPath] at hro
      simp [process_video, download_video, hv, hdl, convert_to_mp4,
        applyEvents_nil, applyEvents_cons, applyEvent_write, applyEvent_ffmpeg,
        fsExists_create, beq_self_eq_true, Bool.or_true,
        get_file_size_create_self, hsz, hf, hro, convCmd, convLim, convTimeoutMsg,
        dlPath, outPath, snapDownloading, snapDownloaded, snapConverting]
  · have hco : env.conv.createsOutput = true :=
      runOutcome_ok_createsOutput _ _ _ _ _ hro
    by_cases hf : (req.format == "mp3") = true
    · rw [convLim, if_pos hf, convTimeoutMsg, if_pos hf] at hro
      simp only [outPath] at hro
      simp [process_video, download_video, hv, hdl, convert_to_mp3,
        applyEvents_nil, applyEvents_cons, applyEvent_write, applyEvent_ffmpeg,
        ffmpegEvents, hco, fsExists_create, beq_self_eq_true,
        Bool.or_true, get_file_size_create_self, hsz, hf, hro, convCmd, convLim,
        convTimeoutMsg, dlPath, outPath, snapDownloading, snapDownloaded,
        snapConverting, snapFinalizing, snapComplete]
    · rw [convLim, if_neg hf, convTimeoutMsg, if_neg hf] at hro
      simp only [outPath] at hro
      simp [process_video, download_video, hv, hdl, convert_to_mp4,
        applyEvents_nil, applyEvents_cons, applyEvent_write, applyEvent_ffmpeg,
        ffmpegEvents, hco, fsExists_create, beq_self_eq_true,
        Bool.or_true, get_file_size_create_self, hsz, hf, hro, convCmd, convLim,
        convTimeoutMsg, dlPath, outPath, snapDownloading, snapDownloaded,
        snapConverting, snapFinalizing, snapComplete]

/-! ## C1: task lifecycle -/

/-- C1: for every task created by submit, the sequence of snapshots written
to the registry starts with the `{progress 0, starting}` registration write,
its progress values are monotonically non-decreasing and end at 100, and
exactly one terminal snapshot (status complete or error) is ever written. -/
theorem C1_progress_monotone_single_terminal :
    ∀ (b : String) (req : ConvertRequest) (env : PipelineEnv) (fs0 : FS),
      List.Chain' (fun x y => x ≤ y)
        ((taskTrace b req env fs0).map Snapshot.progress) ∧
      (taskTrace b req env fs0).head? = some snapStarting ∧
      ((taskTrace b req env fs0).map Snapshot.progress).getLast? = some 100 ∧
      (taskTrace b req env fs0).countP (fun s => isTerminal s) = 1 := by
  intro b req env fs0
  by_cases hv : validate_url req.video_url = true
  · rcases hdl : env.dl with ⟨fid, ext, sz⟩ | m
    · by_cases hsz : MAX_FILE_SIZE < sz
      · rw [taskTrace, run_oversize b req env fs0 fid ext sz hv hdl hsz]
        simp [writesOf_append, writesOf_cleanup, writesOf_ffmpegEvents, writesOf_rmE,
          writesOf_rmE2, writesOf_cons_write, writesOf_cons_create, writesOf_cons_remove,
          writesOf_cons_ffmpeg, writesOf_nil, snapStarting, snapDownloading,
          snapDownloaded, snapConverting, snapFinalizing, snapComplete, errorSnap,
          isTerminal, List.chain'_cons, List.chain'_singleton, List.countP_cons,
          List.countP_nil]
      · rcases hro : runOutcome (convLim req) (convTimeoutMsg req) env.conv
          (outPath env req) with m | u
        · rw [taskTrace, run_sizeok b req env fs0 fid ext sz hv hdl hsz, hro]
          simp [writesOf_append, writesOf_cleanup, writesOf_ffmpegEvents, writesOf_rmE,
          writesOf_rmE2, writesOf_cons_write, writesOf_cons_create, writesOf_cons_remove,
          writesOf_cons_ffmpeg, writesOf_nil, snapStarting, snapDownloading,
          snapDownloaded, snapConverting, snapFinalizing, snapComplete, errorSnap,
          isTerminal, List.chain'_cons, List.chain'_singleton, List.countP_cons,
          List.countP_nil]
        · rw [taskTrace, run_sizeok b req env fs0 fid ext sz hv hdl hsz, hro]
          simp [writesOf_append, writesOf_cleanup, writesOf_ffmpegEvents, writesOf_rmE,
          writesOf_rmE2, writesOf_cons_write, writesOf_cons_create, writesOf_cons_remove,
          writesOf_cons_ffmpeg, writesOf_nil, snapStarting, snapDownloading,
          snapDownloaded, snapConverting, snapFinalizing, snapComplete, errorSnap,
          isTerminal, List.chain'_cons, List.chain'_singleton, List.countP_cons,
          List.countP_nil]
    · rw [taskTrace, run_dl_failure b req env fs0 m hv hdl]
      simp [writesOf_append, writesOf_cleanup, writesOf_ffmpegEvents, writesOf_rmE,
          writesOf_rmE2, writesOf_cons_write, writesOf_cons_create, writesOf_cons_remove,
          writesOf_cons_ffmpeg, writesOf_nil, snapStarting, snapDownloading,
          snapDownloaded, snapConverting, snapFinalizing, snapComplete, errorSnap,
          isTerminal, List.chain'_cons, List.chain'_singleton, List.countP_cons,
          List.countP_nil]
  · have hv' : validate_url req.video_url = false := Bool.of_not_eq_true hv
    rw [taskTrace, run_invalid_url b req env fs0 hv']
    simp [writesOf_append, writesOf_cleanup, writesOf_ffmpegEvents, writesOf_rmE,
          writesOf_rmE2, writesOf_cons_write, writesOf_cons_create, writesOf_cons_remove,
          writesOf_cons_ffmpeg, writesOf_nil, snapStarting, snapDownloading,
          snapDownloaded, snapConverting, snapFinalizing, snapComplete, errorSnap,
          isTerminal, List.chain'_cons, List.chain'_singleton, List.countP_cons,
          List.countP_nil]

/-! ## C2: quota guard -/

/-- After the over-quota path, the intermediate artifact is gone from the
filesystem. -/
theorem oversize_fs_cleared (fs0 : FS) (p : String) (sz : Nat) :
    fsExists
      (applyEvents fs0
        [Event.write snapDownloading, Event.create p sz, Event.write snapDownloaded,
         Event.remove p, Event.write (errorSnap (sizeErrMsg sz))]) p = false := by
  simp only [applyEvents_cons, applyEvents_nil, applyEvent_write]
  rw [fsExists_remove, beq_self_eq_true, Bool.not_true, Bool.false_and]

/-- C2: if the downloaded intermediate artifact's size exceeds
`MAX_FILE_SIZE` (100 MiB), the pipeline never invokes ffmpeg, ends with an
ERROR write whose cause mentions the 100MB limit, and the intermediate
artifact is deleted before that write (the error write is the last event). -/
theorem C2_quota_guard_before_conversion :
    ∀ (b : String) (req : ConvertRequest) (env : PipelineEnv) (fs0 : FS)
      (fid ext : String) (sz : Nat),
      env.dl = DownloadOutcome.success fid ext sz →
      validate_url req.video_url = true →
      MAX_FILE_SIZE < sz →
      invokedFfmpeg (process_video b req env fs0) = false ∧
      (process_video b req env fs0).getLast? =
        some (Event.write (errorSnap (sizeErrMsg sz))) ∧
      containsSub "File exceeds 100MB limit".data (sizeErrMsg sz).data = true ∧
      fsExists (applyEvents fs0 (process_video b req env fs0))
        (dlPath b fid ext) = false := by
  intro b req env fs0 fid ext sz hdl hv hsz
  rw [run_oversize b req env fs0 fid ext sz hv hdl hsz]
  refine ⟨rfl, rfl, ?_, oversize_fs_cleared fs0 (dlPath b fid ext) sz⟩
  have hs : sizeErrMsg sz =
      "File exceeds 100MB limit" ++ (" (" ++ fmtMB sz ++ " MB)") := by
    unfold sizeErrMsg
    rw [← String.append_assoc, ← String.append_assoc]
  rw [hs, String.data_append]
  exact containsSub_self_append _ _

theorem C2_quota_guard_before_conversion_witness :
    ({ dl := DownloadOutcome.success "vid01" "mp4" 104857601,
       conv := { duration := 0, returncode := 0, stderr := "",
                 createsOutput := false, outputSize := 0 },
       outId := "out01" } : PipelineEnv).dl =
        DownloadOutcome.success "vid01" "mp4" 104857601 ∧
    validate_url "https://youtu.be/dQw4w9WgXcQ" = true ∧
    MAX_FILE_SIZE < 104857601 ∧
    (invokedFfmpeg (process_video "/app"
        { video_url := "https://youtu.be/dQw4w9WgXcQ", format := "mp3" }
        { dl := DownloadOutcome.success "vid01" "mp4" 104857601,
          conv := { duration := 0, returncode := 0, stderr := "",
                    createsOutput := false, outputSize := 0 },
          outId := "out01" } []) = false ∧
      (process_video "/app"
        { video_url := "https://youtu.be/dQw4w9WgXcQ", format := "mp3" }
        { dl := DownloadOutcome.success "vid01" "mp4" 104857601,
          conv := { duration := 0, returncode := 0, stderr := "",
                    createsOutput := false, outputSize := 0 },
          outId := "out01" } []).getLast? =
        some (Event.write (errorSnap (sizeErrMsg 104857601))) ∧
      containsSub "File exceeds 100MB limit".data (sizeErrMsg 104857601).data = true ∧
      fsExists (applyEvents []
        (process_video "/app"
          { video_url := "https://youtu.be/dQw4w9WgXcQ", format := "mp3" }
          { dl := DownloadOutcome.success "vid01" "mp4" 104857601,
            conv := { duration := 0, returncode := 0, stderr := "",
                      createsOutput := false, outputSize := 0 },
            outId := "out01" } []))
        (dlPath "/app" "vid01" "mp4") = false) :=
  ⟨rfl, by decide, by decide,
   C2_quota_guard_before_conversion "/app"
     { video_url := "https://youtu.be/dQw4w9WgXcQ", format := "mp3" }
     { dl := DownloadOutcome.success "vid01" "mp4" 104857601,
       conv := { duration := 0, returncode := 0, stderr := "",
                 createsOutput := false, outputSize := 0 },
       outId := "out01" } [] "vid01" "mp4" 104857601 rfl (by decide) (by decide)⟩

/-! ## C4: executor error boundary -/

/-- C4: whenever a task's write sequence ends in an ERROR snapshot with cause
`m`, that snapshot write is the very last event of the run — every file
deletion precedes the publication of the terminal snapshot — and no artifact
created by the task survives in the filesystem; the snapshot holds the
failure's cause string `m`. (The run is a total function of its environment:
no fault escapes the worker.) -/
theorem C4_error_caught_cleanup_before_snapshot :
    ∀ (b : String) (req : ConvertRequest) (env : PipelineEnv) (fs0 : FS) (m : String),
      (writesOf (process_video b req env fs0)).getLast? = some (errorSnap m) →
      (process_video b req env fs0).getLast? = some (Event.write (errorSnap m)) ∧
      ∀ p ∈ createdOf (process_video b req env fs0),
        fsExists (applyEvents fs0 (process_video b req env fs0)) p = false := by
  intro b req env fs0 m h
  by_cases hv : validate_url req.video_url = true
  · rcases hdl : env.dl with ⟨fid, ext, sz⟩ | m0
    · by_cases hsz : MAX_FILE_SIZE < sz
      · rw [run_oversize b req env fs0 fid ext sz hv hdl hsz] at h ⊢
        have hm : sizeErrMsg sz = m := by
          simpa [writesOf_cons_write, writesOf_cons_create, writesOf_cons_remove,
            writesOf_nil, errorSnap] using h
        subst hm
        refine ⟨rfl, ?_⟩
        intro p hp
        have hp' : p = dlPath b fid ext := by
          simpa [createdOf_cons_write, createdOf_cons_create, createdOf_cons_remove,
            createdOf_nil] using hp
        subst hp'
        exact oversize_fs_cleared fs0 (dlPath b fid ext) sz
      · rcases hro : runOutcome (convLim req) (convTimeoutMsg req) env.conv
          (outPath env req) with m1 | u
        · rw [run_sizeok b req env fs0 fid ext sz hv hdl hsz, hro] at h ⊢
          have hm : m1 = m := by
            simpa [writesOf_append, writesOf_cleanup, writesOf_ffmpegEvents,
              writesOf_cons_write, writesOf_cons_create, writesOf_nil,
              errorSnap] using h
          subst hm
          constructor
          · rw [show ([Event.write snapDownloading,
                Event.create (dlPath b fid ext) sz, Event.write snapDownloaded,
                Event.write snapConverting] ++
                ffmpegEvents (convCmd req (dlPath b fid ext) (outPath env req))
                  (convLim req) env.conv (outPath env req) ++
                (cleanupEvents
                  (applyEvents (applyEvent fs0 (Event.create (dlPath b fid ext) sz))
                    (ffmpegEvents (convCmd req (dlPath b fid ext) (outPath env req))
                      (convLim req) env.conv (outPath env req)))
                  [some (dlPath b fid ext), some (outPath env req)] ++
                  [Event.write (errorSnap m1)])) =
              (([Event.write snapDownloading,
                Event.create (dlPath b fid ext) sz, Event.write snapDownloaded,
                Event.write snapConverting] ++
                ffmpegEvents (convCmd req (dlPath b fid ext) (outPath env req))
                  (convLim req) env.conv (outPath env req) ++
                cleanupEvents
                  (applyEvents (applyEvent fs0 (Event.create (dlPath b fid ext) sz))
                    (ffmpegEvents (convCmd req (dlPath b fid ext) (outPath env req))
                      (convLim req) env.conv (outPath env req)))
                  [some (dlPath b fid ext), some (outPath env req)]) ++
                  [Event.write (errorSnap m1)]) from by
              simp [List.append_assoc]]
            exact List.getLast?_concat _
          · intro p hp
            have hp' : p = dlPath b fid ext ∨
                (env.conv.createsOutput = true ∧ p = outPath env req) := by
              rcases hc : env.conv.createsOutput with _ | _ <;>
                simpa [createdOf_append, createdOf_cleanup, createdOf_ffmpegEvents,
                  createdOf_cons_write, createdOf_cons_create, createdOf_nil, hc]
                  using hp
            simp only [applyEvents_append, applyEvents_cons, applyEvents_nil,
              applyEvent_write]
            rcases hp' with rfl | ⟨-, rfl⟩
            · exact cleanup_removes _ _ _ (by simp)
            · exact cleanup_removes _ _ _ (by simp)
        · rw [run_sizeok b req env fs0 fid ext sz hv hdl hsz, hro] at h
          exfalso
          have : snapComplete (outPath env req) req.format env.conv.outputSize =
              errorSnap m := by
            simpa [writesOf_append, writesOf_cleanup, writesOf_ffmpegEvents,
              writesOf_rmE, writesOf_rmE2, writesOf_cons_write,
              writesOf_cons_create, writesOf_nil] using h
          simpa [snapComplete, errorSnap] using congrArg Snapshot.status this
    · rw [run_dl_failure b req env fs0 m0 hv hdl] at h ⊢
      have hm : m0 = m := by
        simpa [writesOf_cons_write, writesOf_nil, errorSnap] using h
      subst hm
      exact ⟨rfl, by intro p hp; cases hp⟩
  · have hv' : validate_url req.video_url = false := Bool.of_not_eq_true hv
    rw [run_invalid_url b req env fs0 hv'] at h ⊢
    have hm : domainErrMsg = m := by
      simpa [writesOf_cons_write, writesOf_nil, errorSnap] using h
    subst hm
    exact ⟨rfl, by intro p hp; cases hp⟩

theorem C4_error_caught_cleanup_before_snapshot_witness :
    (writesOf (process_video "/app"
        { video_url := "https://vimeo.com/123", format := "mp4" }
        { dl := DownloadOutcome.failure "yt-dlp exploded",
          conv := { duration := 0, returncode := 0, stderr := "",
                    createsOutput := false, outputSize := 0 },
          outId := "o1" } [])).getLast? =
      some (errorSnap "yt-dlp exploded") ∧
    ((process_video "/app"
        { video_url := "https://vimeo.com/123", format := "mp4" }
        { dl := DownloadOutcome.failure "yt-dlp exploded",
          conv := { duration := 0, returncode := 0, stderr := "",
                    createsOutput := false, outputSize := 0 },
          outId := "o1" } []).getLast? =
      some (Event.write (errorSnap "yt-dlp exploded")) ∧
    ∀ p ∈ createdOf (process_video "/app"
        { video_url := "https://vimeo.com/123", format := "mp4" }
        { dl := DownloadOutcome.failure "yt-dlp exploded",
          conv := { duration := 0, returncode := 0, stderr := "",
                    createsOutput := false, outputSize := 0 },
          outId := "o1" } []),
      fsExists (applyEvents []
        (process_video "/app"
          { video_url := "https://vimeo.com/123", format := "mp4" }
          { dl := DownloadOutcome.failure "yt-dlp exploded",
            conv := { duration := 0, returncode := 0, stderr := "",
                      createsOutput := false, outputSize := 0 },
            outId := "o1" } [])) p = false) :=
  ⟨by decide,
   C4_error_caught_cleanup_before_snapshot "/app"
     { video_url := "https://vimeo.com/123", format := "mp4" }
     { dl := DownloadOutcome.failure "yt-dlp exploded",
       conv := { duration := 0, returncode := 0, stderr := "",
                 createsOutput := false, outputSize := 0 },
       outId := "o1" } [] "yt-dlp exploded" (by decide)⟩

/-! ## C7: transcode timeout ceilings -/

/-- C7: every ffmpeg invocation of a task carries the per-invocation timeout
ceiling chosen by the format — 300 s (5 min) on the mp3 path, 600 s (10 min)
on the mp4 path — and when the invocation's duration exceeds that ceiling the
task terminates with an ERROR snapshot whose cause mentions the timeout. -/
theorem C7_timeout_ceiling_fatal :
    ∀ (b : String) (req : ConvertRequest) (env : PipelineEnv) (fs0 : FS)
      (fid ext : String) (sz : Nat),
      env.dl = DownloadOutcome.success fid ext sz →
      validate_url req.video_url = true →
      ¬ MAX_FILE_SIZE < sz →
      ((req.format = "mp3" ∧ 300 < env.conv.duration) ∨
        (req.format = "mp4" ∧ 600 < env.conv.duration)) →
      (∀ cmd lim, Event.ffmpeg cmd lim ∈ process_video b req env fs0 →
          lim = convLim req) ∧
      (process_video b req env fs0).getLast? =
        some (Event.write (errorSnap (convTimeoutMsg req))) ∧
      containsSub "timed out".data (convTimeoutMsg req).data = true := by
  intro b req env fs0 fid ext sz hdl hv hsz hf
  have hlim : convLim req < env.conv.duration := by
    rcases hf with ⟨hf, hd⟩ | ⟨hf, hd⟩ <;> simp [convLim, hf, hd]
  have hro : runOutcome (convLim req) (convTimeoutMsg req) env.conv
      (outPath env req) = Except.error (convTimeoutMsg req) := by
    simp [runOutcome, hlim]
  rw [run_sizeok b req env fs0 fid ext sz hv hdl hsz, hro]
  refine ⟨?_, ?_, ?_⟩
  · intro cmd lim hmem
    rcases hc : env.conv.createsOutput with _ | _ <;>
      simp only [ffmpegEvents, hc, List.append_assoc, List.mem_append,
        List.mem_cons, List.mem_singleton, List.not_mem_nil, if_true, if_false,
        List.singleton_append, List.nil_append, or_false, false_or] at hmem <;>
    · rcases hmem with hmem | hmem | hmem
      · simp at hmem
      · rcases hmem with hmem | hmem
        · exact (Event.ffmpeg.injEq _ _ _ _).mp hmem |>.2
        · first
          | (exfalso; simp at hmem)
          | (rcases hmem with hmem | hmem
             · simp at hmem
             · rcases hmem with hmem | hmem
               · obtain ⟨q, hq⟩ := mem_cleanupEvents _ _ _ hmem
                 cases hq
               · simp at hmem)
      · first
        | (obtain ⟨q, hq⟩ := mem_cleanupEvents _ _ _ hmem; cases hq)
        | (rcases hmem with hmem | hmem
           · obtain ⟨q, hq⟩ := mem_cleanupEvents _ _ _ hmem
             cases hq
           · simp at hmem)
  · rw [show ([Event.write snapDownloading,
        Event.create (dlPath b fid ext) sz, Event.write snapDownloaded,
        Event.write snapConverting] ++
        ffmpegEvents (convCmd req (dlPath b fid ext) (outPath env req))
          (convLim req) env.conv (outPath env req) ++
        (cleanupEvents
          (applyEvents (applyEvent fs0 (Event.create (dlPath b fid ext) sz))
            (ffmpegEvents (convCmd req (dlPath b fid ext) (outPath env req))
              (convLim req) env.conv (outPath env req)))
          [some (dlPath b fid ext), some (outPath env req)] ++
          [Event.write (errorSnap (convTimeoutMsg req))])) =
      (([Event.write snapDownloading,
        Event.create (dlPath b fid ext) sz, Event.write snapDownloaded,
        Event.write snapConverting] ++
        ffmpegEvents (convCmd req (dlPath b fid ext) (outPath env req))
          (convLim req) env.conv (outPath env req) ++
        cleanupEvents
          (applyEvents (applyEvent fs0 (Event.create (dlPath b fid ext) sz))
            (ffmpegEvents (convCmd req (dlPath b fid ext) (outPath env req))
              (convLim req) env.conv (outPath env req)))
          [some (dlPath b fid ext), some (outPath env req)]) ++
          [Event.write (errorSnap (convTimeoutMsg req))]) from by
      simp [List.append_assoc]]
    exact List.getLast?_concat _
  · unfold convTimeoutMsg
    split
    · decide
    · decide

theorem C7_timeout_ceiling_fatal_witness :
    ({ dl := DownloadOutcome.success "v7" "webm" 1000,
       conv := { duration := 301, returncode := 0, stderr := "",
                 createsOutput := false, outputSize := 0 },
       outId := "o7" } : PipelineEnv).dl =
        DownloadOutcome.success "v7" "webm" 1000 ∧
    validate_url "https://www.youtube.com/watch?v=x" = true ∧
    ¬ MAX_FILE_SIZE < 1000 ∧
    ((("mp3" : String) = "mp3" ∧ (300 : Nat) < 301) ∨
      (("mp3" : String) = "mp4" ∧ (600 : Nat) < 301)) ∧
    ((∀ cmd lim, Event.ffmpeg cmd lim ∈ process_video "/srv"
        { video_url := "https://www.youtube.com/watch?v=x", format := "mp3" }
        { dl := DownloadOutcome.success "v7" "webm" 1000,
          conv := { duration := 301, returncode := 0, stderr := "",
                    createsOutput := false, outputSize := 0 },
          outId := "o7" } [] →
        lim = convLim { video_url := "https://www.youtube.com/watch?v=x",
                        format := "mp3" }) ∧
      (process_video "/srv"
        { video_url := "https://www.youtube.com/watch?v=x", format := "mp3" }
        { dl := DownloadOutcome.success "v7" "webm" 1000,
          conv := { duration := 301, returncode := 0, stderr := "",
                    createsOutput := false, outputSize := 0 },
          outId := "o7" } []).getLast? =
        some (Event.write (errorSnap (convTimeoutMsg
          { video_url := "https://www.youtube.com/watch?v=x", format := "mp3" }))) ∧
      containsSub "timed out".data
        (convTimeoutMsg { video_url := "https://www.youtube.com/watch?v=x",
                          format := "mp3" }).data = true) :=
  ⟨rfl, by decide, by decide, Or.inl ⟨rfl, by decide⟩,
   C7_timeout_ceiling_fatal "/srv"
     { video_url := "https://www.youtube.com/watch?v=x", format := "mp3" }
     { dl := DownloadOutcome.success "v7" "webm" 1000,
       conv := { duration := 301, returncode := 0, stderr := "",
                 createsOutput := false, outputSize := 0 },
       outId := "o7" } [] "v7" "webm" 1000 rfl (by decide) (by decide)
     (Or.inl ⟨rfl, by decide⟩)⟩

/-! ## C6: fresh output name, unconditional re-encode -/

theorem takeWhile_ne_append (ch : Char) (l1 l2 : List Char) (h : ¬ ch ∈ l1) :
    (l1 ++ l2).takeWhile (fun c => !(c == ch)) =
      l1 ++ l2.takeWhile (fun c => !(c == ch)) := by
  refine List.takeWhile_append_of_pos ?_
  intro a ha
  have : a ≠ ch := fun e => h (e ▸ ha)
  simp [this]

theorem lastComp_append (d name : List Char) (hn : ¬ '/' ∈ name) :
    lastComp (d ++ '/' :: name) = name := by
  unfold lastComp
  rw [show (d ++ '/' :: name).reverse = name.reverse ++ ('/' :: d.reverse) from by
    simp]
  rw [takeWhile_ne_append '/' name.reverse ('/' :: d.reverse)
    (by simpa using hn)]
  rw [show List.takeWhile (fun c => !(c == '/')) ('/' :: d.reverse) = [] from by
    simp [List.takeWhile_cons]]
  simp

theorem splitExt_append (id e : List Char) (hid : id ≠ []) (hene : e ≠ [])
    (he : ¬ '.' ∈ e) : (splitExt (id ++ '.' :: e)).1 = id := by
  have htw : (id ++ '.' :: e).reverse.takeWhile (fun c => !(c == '.')) =
      e.reverse := by
    rw [show (id ++ '.' :: e).reverse = e.reverse ++ ('.' :: id.reverse) from by
      simp]
    rw [takeWhile_ne_append '.' e.reverse ('.' :: id.reverse) (by simpa using he)]
    simp [List.takeWhile_cons]
  have hlen : (id ++ '.' :: e).length = id.length + 1 + e.length := by
    simp [List.length_append, List.length_cons]
    omega
  have hel : e.length ≠ 0 := by simpa using hene
  have hil : id.length ≠ 0 := by simpa using hid
  unfold splitExt
  simp only [htw, List.length_reverse]
  rw [if_neg (by simp only [hlen]; omega)]
  rw [if_pos (by simp only [hlen]; constructor <;> omega)]
  rw [show (id ++ '.' :: e).length - e.length - 1 = id.length from by
    simp only [hlen]; omega]
  exact List.take_left id ('.' :: e)

theorem stemOf_path (dir id e : String) (hid1 : ¬ '/' ∈ id.data)
    (hid2 : id.data ≠ []) (he1 : ¬ '/' ∈ e.data) (he2 : ¬ '.' ∈ e.data)
    (he3 : e.data ≠ []) : stemOf (dir ++ "/" ++ id ++ "." ++ e) = id := by
  unfold stemOf
  have hdata : (dir ++ "/" ++ id ++ "." ++ e).data =
      dir.data ++ '/' :: (id.data ++ '.' :: e.data) := by
    simp [String.data_append]
  rw [hdata, lastComp_append _ _ (by
    simp only [List.mem_append, List.mem_cons]
    rintro (h | h | h)
    · exact hid1 h
    · exact absurd h (by decide)
    · exact he1 h)]
  rw [splitExt_append id.data e.data hid2 he3 he2]

theorem convCmd_getLast (req : ConvertRequest) (input out : String) :
    (convCmd req input out).getLast? = some out := by
  unfold convCmd
  split <;> rfl

/-- C6: whenever a task reaches the converting stage, the executor invokes
the transcode capability — even when the intermediate artifact's extension
equals the requested container, since the hypotheses admit `ext = "mp4"`,
`format = "mp4"` — with an output path built under `TEMP_DIR` from the fresh
shortuuid `env.outId`; given the freshness of the draw (`env.outId ≠ fid`)
the output path differs from the intermediate artifact's path, whose stem is
`fid`. -/
theorem C6_fresh_output_name_and_reencode :
    ∀ (b : String) (req : ConvertRequest) (env : PipelineEnv) (fs0 : FS)
      (fid ext : String) (sz : Nat),
      env.dl = DownloadOutcome.success fid ext sz →
      validate_url req.video_url = true →
      ¬ MAX_FILE_SIZE < sz →
      (req.format = "mp3" ∨ req.format = "mp4") →
      ¬ '/' ∈ fid.data → fid.data ≠ [] →
      ¬ '/' ∈ ext.data → ¬ '.' ∈ ext.data → ext.data ≠ [] →
      ¬ '/' ∈ env.outId.data → env.outId.data ≠ [] →
      env.outId ≠ fid →
      (∃ cmd, Event.ffmpeg cmd (convLim req) ∈ process_video b req env fs0 ∧
          cmd.getLast? = some (outPath env req)) ∧
      stemOf (outPath env req) = env.outId ∧
      stemOf (dlPath b fid ext) = fid ∧
      outPath env req ≠ dlPath b fid ext := by
  intro b req env fs0 fid ext sz hdl hv hsz hfmt hf1 hf2 he1 he2 he3 ho1 ho2 hfresh
  have hfmt1 : ¬ '/' ∈ req.format.data := by
    rcases hfmt with h | h <;> rw [h] <;> decide
  have hfmt2 : ¬ '.' ∈ req.format.data := by
    rcases hfmt with h | h <;> rw [h] <;> decide
  have hfmt3 : req.format.data ≠ [] := by
    rcases hfmt with h | h <;> rw [h] <;> decide
  have hstemOut : stemOf (outPath env req) = env.outId :=
    stemOf_path TEMP_DIR env.outId req.format ho1 ho2 hfmt1 hfmt2 hfmt3
  have hstemDl : stemOf (dlPath b fid ext) = fid :=
    stemOf_path (STORAGE_DIR b) fid ext hf1 hf2 he1 he2 he3
  refine ⟨?_, hstemOut, hstemDl, ?_⟩
  · refine ⟨convCmd req (dlPath b fid ext) (outPath env req), ?_,
      convCmd_getLast req (dlPath b fid ext) (outPath env req)⟩
    rw [run_sizeok b req env fs0 fid ext sz hv hdl hsz]
    have hm : Event.ffmpeg (convCmd req (dlPath b fid ext) (outPath env req))
        (convLim req) ∈
        ffmpegEvents (convCmd req (dlPath b fid ext) (outPath env req))
          (convLim req) env.conv (outPath env req) := by
      simp [ffmpegEvents]
    exact List.mem_append.mpr (Or.inl (List.mem_append.mpr (Or.inr hm)))
  · intro heq
    have := congrArg stemOf heq
    rw [hstemOut, hstemDl] at this
    exact hfresh this

theorem C6_fresh_output_name_and_reencode_witness :
    ({ dl := DownloadOutcome.success "aaa" "mp4" 1000,
       conv := { duration := 1, returncode := 0, stderr := "",
                 createsOutput := true, outputSize := 5 },
       outId := "bbb" } : PipelineEnv).dl =
        DownloadOutcome.success "aaa" "mp4" 1000 ∧
    validate_url "https://x.com/clip" = true ∧
    ¬ MAX_FILE_SIZE < 1000 ∧
    (("mp4" : String) = "mp3" ∨ ("mp4" : String) = "mp4") ∧
    (("bbb" : String) ≠ "aaa") ∧
    ((∃ cmd, Event.ffmpeg cmd
          (convLim { video_url := "https://x.com/clip", format := "mp4" }) ∈
          process_video "/app"
            { video_url := "https://x.com/clip", format := "mp4" }
            { dl := DownloadOutcome.success "aaa" "mp4" 1000,
              conv := { duration := 1, returncode := 0, stderr := "",
                        createsOutput := true, outputSize := 5 },
              outId := "bbb" } [] ∧
        cmd.getLast? = some (outPath
          { dl := DownloadOutcome.success "aaa" "mp4" 1000,
            conv := { duration := 1, returncode := 0, stderr := "",
                      createsOutput := true, outputSize := 5 },
            outId := "bbb" }
          { video_url := "https://x.com/clip", format := "mp4" })) ∧
      stemOf (outPath
        { dl := DownloadOutcome.success "aaa" "mp4" 1000,
          conv := { duration := 1, returncode := 0, stderr := "",
                    createsOutput := true, outputSize := 5 },
          outId := "bbb" }
        { video_url := "https://x.com/clip", format := "mp4" }) = "bbb" ∧
      stemOf (dlPath "/app" "aaa" "mp4") = "aaa" ∧
      outPath
        { dl := DownloadOutcome.success "aaa" "mp4" 1000,
          conv := { duration := 1, returncode := 0, stderr := "",
                    createsOutput := true, outputSize := 5 },
          outId := "bbb" }
        { video_url := "https://x.com/clip", format := "mp4" } ≠
        dlPath "/app" "aaa" "mp4") :=
  ⟨rfl, by decide, by decide, Or.inr rfl, by decide,
   C6_fresh_output_name_and_reencode "/app"
     { video_url := "https://x.com/clip", format := "mp4" }
     { dl := DownloadOutcome.success "aaa" "mp4" 1000,
       conv := { duration := 1, returncode := 0, stderr := "",
                 createsOutput := true, outputSize := 5 },
       outId := "bbb" } [] "aaa" "mp4" 1000 rfl (by decide) (by decide)
     (Or.inr rfl) (by decide) (by decide) (by decide) (by decide) (by decide)
     (by decide) (by decide) (by decide)⟩

end VidXpress
